import Mathlib

set_option autoImplicit false

/-!
Shallow embedding of the SQLfastmcp server core (src/main.py, src/database.py):
the query-safety gate of `query_database_tool`, the row serializers of
`DatabaseManager.execute_query` and `QueryExecutor.execute_select_query`,
the tool handlers, the `MCP_TOOLS` registry and the `/mcp` JSON-RPC
dispatcher `mcp_handler`.  Python strings are modelled over their code
points (`List Char`); `str.strip`, `str.upper`, `startswith`, `in`
(substring) and slicing are given explicit executable models below,
faithful on the ASCII range that SQL keywords use.
-/

/-! ## Python string primitives -/

/-- Whitespace set of Python `str.strip()` (ASCII range). -/
def pyIsSpace (c : Char) : Bool :=
  c == ' ' || c == '\t' || c == '\n' || c == '\r' || c == '\x0b' || c == '\x0c'

/-- Model of Python `str.upper()` on one character (ASCII range). -/
def pyUpperChar (c : Char) : Char :=
  if 'a' ≤ c && c ≤ 'z' then Char.ofNat (c.toNat - 32) else c

/-- Remove leading whitespace from a character list. -/
def stripLeft : List Char → List Char
  | [] => []
  | c :: cs => if pyIsSpace c then stripLeft cs else c :: cs

/-- Remove trailing whitespace from a character list. -/
def stripRight (l : List Char) : List Char :=
  (stripLeft l.reverse).reverse

/-- Model of Python `str.strip()`. -/
def pyStrip (s : String) : String :=
  ⟨stripRight (stripLeft s.data)⟩

/-- Model of Python `str.upper()`. -/
def pyUpper (s : String) : String :=
  ⟨s.data.map pyUpperChar⟩

/-- Model of Python slicing `s[n:]` (by code points). -/
def pyDrop (s : String) (n : Nat) : String :=
  ⟨s.data.drop n⟩

/-- Decidable test that `pat` is a prefix of `l`. -/
def chIsPref : List Char → List Char → Bool
  | [], _ => true
  | _ :: _, [] => false
  | p :: ps, c :: cs => p == c && chIsPref ps cs

/-- Decidable substring test on character lists. -/
def chContains (pat : List Char) : List Char → Bool
  | [] => chIsPref pat []
  | c :: cs => chIsPref pat (c :: cs) || chContains pat cs

/-- Model of Python `pat in s` (substring test). -/
def strContains (s pat : String) : Bool :=
  chContains pat.data s.data

/-- Model of Python `s.startswith(pre)`. -/
def pyStartsWith (s pre : String) : Bool :=
  chIsPref pre.data s.data

/-! ## JSON values (the result dictionaries that the tools build) -/

/-- JSON-serializable Python values as they appear in the tool-result
dictionaries and in the JSON-RPC request/response envelopes. -/
inductive Json where
  | null
  | bool (b : Bool)
  | num (n : Int)
  | str (s : String)
  | arr (elems : List Json)
  | obj (fields : List (String × Json))

/-- Lookup in an association list, first match wins (Python `dict` access
with string keys, insertion order preserved). -/
def lookupAssoc {α : Type} : List (String × α) → String → Option α
  | [], _ => none
  | (k, v) :: rest, key => if k == key then some v else lookupAssoc rest key

/-- Field access on a JSON object; `none` on non-objects or missing keys. -/
def jsonGet (j : Json) (key : String) : Option Json :=
  match j with
  | .obj fields => lookupAssoc fields key
  | _ => none

/-- Escape one character as Python `json.dumps` does (`ensure_ascii` on the
ASCII range; inputs here are ASCII). -/
def jsonEscapeChar (c : Char) : String :=
  if c == '"' then "\\\""
  else if c == '\\' then "\\\\"
  else if c == '\n' then "\\n"
  else if c == '\t' then "\\t"
  else if c == '\r' then "\\r"
  else String.singleton c

/-- Escape a string for a JSON string literal. -/
def jsonEscape (s : String) : String :=
  s.data.foldl (fun acc c => acc ++ jsonEscapeChar c) ""

/-- Indentation of `n` spaces. -/
def jsonSpaces (n : Nat) : String :=
  ⟨List.replicate n ' '⟩

mutual

/-- Model of Python `json.dumps(x, indent=2)` at nesting level `lvl`. -/
def dumpsInd (lvl : Nat) : Json → String
  | .null => "null"
  | .bool true => "true"
  | .bool false => "false"
  | .num n => toString n
  | .str s => "\"" ++ jsonEscape s ++ "\""
  | .arr [] => "[]"
  | .arr (e :: es) =>
      "[\n" ++ String.intercalate ",\n" (dumpsItems (lvl + 1) (e :: es)) ++
      "\n" ++ jsonSpaces (lvl * 2) ++ "]"
  | .obj [] => "\x7b\x7d"
  | .obj (f :: fs) =>
      "\x7b\n" ++ String.intercalate ",\n" (dumpsFields (lvl + 1) (f :: fs)) ++
      "\n" ++ jsonSpaces (lvl * 2) ++ "\x7d"

/-- Serialize the items of a JSON array, each on its own indented line. -/
def dumpsItems (lvl : Nat) : List Json → List String
  | [] => []
  | e :: es => (jsonSpaces (lvl * 2) ++ dumpsInd lvl e) :: dumpsItems lvl es

/-- Serialize the fields of a JSON object, each on its own indented line. -/
def dumpsFields (lvl : Nat) : List (String × Json) → List String
  | [] => []
  | (k, v) :: fs =>
      (jsonSpaces (lvl * 2) ++ "\"" ++ jsonEscape k ++ "\": " ++ dumpsInd lvl v) ::
      dumpsFields lvl fs

end

/-- Model of Python `json.dumps(x, indent=2)` as used by `mcp_handler`. -/
def pyJsonDumps (j : Json) : String :=
  dumpsInd 0 j

example : pyJsonDumps (Json.obj [("error", Json.str "boom")]) =
    "\x7b\n  \"error\": \"boom\"\n\x7d" := by rfl

/-! ## Row serializers

`DatabaseManager.execute_query` (src/main.py lines 94-102) and
`QueryExecutor.execute_select_query` (src/database.py lines 137-151) each
serialize raw driver values before returning rows. -/

/-- Native database values as the pyodbc driver hands them to the row loop. -/
inductive PyValue where
  | pyDatetime (iso : String)
  | pyBytes (bs : List Nat)
  | pyStr (s : String)
  | pyInt (n : Int)
  | pyNone
  deriving DecidableEq

/-- Continuation byte test `0x80 <= b <= 0xBF`. -/
def utf8IsCont (b : Nat) : Bool :=
  0x80 ≤ b && b ≤ 0xBF

/-- Strict UTF-8 decoding of a byte list to code points, exactly the
acceptance rules of Python `bytes.decode("utf-8")`: no overlong forms, no
surrogates, nothing above U+10FFFF. -/
def utf8DecodeList : List Nat → Option (List Char)
  | [] => some []
  | b :: rest =>
    if b ≤ 0x7F then
      (utf8DecodeList rest).map (fun cs => Char.ofNat b :: cs)
    else if 0xC2 ≤ b && b ≤ 0xDF then
      match rest with
      | b1 :: rest1 =>
        if utf8IsCont b1 then
          (utf8DecodeList rest1).map
            (fun cs => Char.ofNat ((b - 0xC0) * 64 + (b1 - 0x80)) :: cs)
        else none
      | _ => none
    else if 0xE0 ≤ b && b ≤ 0xEF then
      match rest with
      | b1 :: b2 :: rest2 =>
        let okFirst :=
          if b == 0xE0 then 0xA0 ≤ b1 && b1 ≤ 0xBF
          else if b == 0xED then 0x80 ≤ b1 && b1 ≤ 0x9F
          else utf8IsCont b1
        if okFirst && utf8IsCont b2 then
          (utf8DecodeList rest2).map
            (fun cs =>
              Char.ofNat ((b - 0xE0) * 4096 + (b1 - 0x80) * 64 + (b2 - 0x80)) :: cs)
        else none
      | _ => none
    else if 0xF0 ≤ b && b ≤ 0xF4 then
      match rest with
      | b1 :: b2 :: b3 :: rest3 =>
        let okFirst :=
          if b == 0xF0 then 0x90 ≤ b1 && b1 ≤ 0xBF
          else if b == 0xF4 then 0x80 ≤ b1 && b1 ≤ 0x8F
          else utf8IsCont b1
        if okFirst && utf8IsCont b2 && utf8IsCont b3 then
          (utf8DecodeList rest3).map
            (fun cs =>
              Char.ofNat ((b - 0xF0) * 262144 + (b1 - 0x80) * 4096 +
                (b2 - 0x80) * 64 + (b3 - 0x80)) :: cs)
        else none
      | _ => none
    else none

/-- Model of Python `value.decode("utf-8")`: `some` of the decoded string,
or `none` when a `UnicodeDecodeError` would be raised. -/
def utf8Decode (bs : List Nat) : Option String :=
  (utf8DecodeList bs).map (fun cs => ⟨cs⟩)

/-- Value conversion of `DatabaseManager.execute_query` (src/main.py
lines 97-101): date/time values become their `isoformat()` string, every
other value - bytes included - passes through unchanged. -/
def dbManagerSerializeValue : PyValue → PyValue
  | .pyDatetime iso => .pyStr iso
  | v => v

/-- Value conversion of `QueryExecutor.execute_select_query`
(src/database.py lines 140-150): date/time values become their
`isoformat()` string; byte values are UTF-8 decoded, falling back to the
`"<binary data: N bytes>"` placeholder; everything else passes through. -/
def queryExecutorSerializeValue : PyValue → PyValue
  | .pyDatetime iso => .pyStr iso
  | .pyBytes bs =>
    match utf8Decode bs with
    | some s => .pyStr s
    | none => .pyStr ("<binary data: " ++ toString bs.length ++ " bytes>")
  | v => v

/-- Row serialization of `DatabaseManager.execute_query`: pair each column
name with the converted value, in column order. -/
def dbManagerSerializeRow (columns : List String) (row : List PyValue) :
    List (String × PyValue) :=
  (List.zip columns row).map (fun cv => (cv.1, dbManagerSerializeValue cv.2))

/-- Row serialization of `QueryExecutor.execute_select_query`. -/
def queryExecutorSerializeRow (columns : List String) (row : List PyValue) :
    List (String × PyValue) :=
  (List.zip columns row).map (fun cv => (cv.1, queryExecutorSerializeValue cv.2))

example : utf8Decode [0x68, 0x69] = some "hi" := by rfl
example : utf8Decode [255, 254, 253, 252] = none := by rfl
example : utf8Decode [0xC3, 0xA9] = some "é" := by rfl
example : utf8Decode [0xED, 0xA0, 0x80] = none := by rfl

/-! ## Query safety gate and tool handlers (src/main.py)

The database driver is an external collaborator: a handler invocation is
modelled against an oracle `DB` mapping a statement text and positional
parameters to either result rows or an error message (the text of the
exception the driver would raise).  Each tool that reaches the database
also reports the list of `execute_query` calls it performed, so that
"never touches the database" is a statement about that list. -/

/-- External database oracle: `DatabaseManager.execute_query(query, params)`
returns serialized rows or raises (modelled as `Except.error`). -/
def DB : Type :=
  String → List Json → Except String (List Json)

/-- Outcome of the query-safety gate of `query_database_tool`
(src/main.py lines 133-147): either the early-return rejection dictionary
(carrying the original query), or the statement text to execute. -/
inductive GateOutcome where
  | reject (query : String)
  | run (query : String)
  deriving DecidableEq

/-- Query-safety gate of `query_database_tool`, a line-by-line model of
src/main.py lines 133-147: uppercase the stripped query; reject non-SELECT;
when the uppercased text contains neither `"LIMIT"` nor `"TOP"` as a
substring, cap the limit at 1000 and splice a `TOP` clause after
`SELECT DISTINCT` (fixed 15-character prefix) or after `SELECT`
(first 6 characters); otherwise pass the query through untouched. -/
def query_gate (query : String) (limit : Int) : GateOutcome :=
  let query_upper := pyUpper (pyStrip query)
  if !(pyStartsWith query_upper "SELECT") then
    .reject query
  else if !(strContains query_upper "LIMIT") && !(strContains query_upper "TOP") then
    let limit := if limit > 1000 then (1000 : Int) else limit
    let q := pyStrip query
    if pyStartsWith query_upper "SELECT DISTINCT" then
      .run ("SELECT DISTINCT TOP " ++ toString limit ++ " " ++ pyDrop q 15)
    else
      .run ("SELECT TOP " ++ toString limit ++ " " ++ pyDrop q 6)
  else
    .run query

/-- Handler `query_database_tool(query, limit=100)` (src/main.py lines
131-164).  The second component lists the `execute_query` calls made
(statement text and positional parameters); the rejection branch returns
before any connection is opened, so its call list is empty. -/
def query_database_tool (db : DB) (now : String) (query : String) (limit : Int) :
    Json × List (String × List Json) :=
  match query_gate query limit with
  | .reject q =>
    (Json.obj [("error", Json.str "Only SELECT queries are allowed for security reasons"),
               ("query", Json.str q)], [])
  | .run q =>
    match db q [] with
    | .ok results =>
      (Json.obj [("success", Json.bool true),
                 ("results", Json.arr results),
                 ("row_count", Json.num results.length),
                 ("query", Json.str q),
                 ("timestamp", Json.str now)], [(q, [])])
    | .error e =>
      (Json.obj [("success", Json.bool false),
                 ("error", Json.str e),
                 ("query", Json.str q),
                 ("timestamp", Json.str now)], [(q, [])])

/-- Fixed introspection statement of `list_tables_tool` (src/main.py lines
169-174), transcribed from the triple-quoted Python literal. -/
def LIST_TABLES_QUERY : String :=
  "\n        SELECT TABLE_NAME \n        FROM INFORMATION_SCHEMA.TABLES \n        WHERE TABLE_TYPE = \x27BASE TABLE\x27\n        ORDER BY TABLE_NAME\n        "

/-- Extract `row[key]` from every row (the list comprehension in
src/main.py line 176); a missing key raises `KeyError`. -/
def getColumn : List Json → String → Except String (List Json)
  | [], _ => .ok []
  | row :: rest, key =>
    match jsonGet row key with
    | some v => (getColumn rest key).map (fun vs => v :: vs)
    | none => .error ("KeyError: \x27" ++ key ++ "\x27")

/-- Handler `list_tables_tool()` (src/main.py lines 166-189). -/
def list_tables_tool (db : DB) (now : String) : Json :=
  match db LIST_TABLES_QUERY [] with
  | .error e =>
    Json.obj [("success", Json.bool false), ("error", Json.str e),
              ("timestamp", Json.str now)]
  | .ok results =>
    match getColumn results "TABLE_NAME" with
    | .error e =>
      Json.obj [("success", Json.bool false), ("error", Json.str e),
                ("timestamp", Json.str now)]
    | .ok tables =>
      Json.obj [("success", Json.bool true),
                ("tables", Json.arr tables),
                ("table_count", Json.num tables.length),
                ("timestamp", Json.str now)]

/-- Fixed parameterized statement of `describe_table_tool` (src/main.py
lines 194-204). -/
def DESCRIBE_TABLE_QUERY : String :=
  "\n        SELECT \n            COLUMN_NAME,\n            DATA_TYPE,\n            IS_NULLABLE,\n            COLUMN_DEFAULT,\n            CHARACTER_MAXIMUM_LENGTH\n        FROM INFORMATION_SCHEMA.COLUMNS \n        WHERE TABLE_NAME = ?\n        ORDER BY ORDINAL_POSITION\n        "

/-- Handler `describe_table_tool(table_name)` (src/main.py lines 191-220). -/
def describe_table_tool (db : DB) (now : String) (table_name : String) : Json :=
  match db DESCRIBE_TABLE_QUERY [Json.str table_name] with
  | .error e =>
    Json.obj [("success", Json.bool false), ("error", Json.str e),
              ("table_name", Json.str table_name), ("timestamp", Json.str now)]
  | .ok schema =>
    Json.obj [("success", Json.bool true),
              ("table_name", Json.str table_name),
              ("columns", Json.arr schema),
              ("column_count", Json.num schema.length),
              ("timestamp", Json.str now)]

/-- Single-row info extraction `rows[0][key] if rows else "Unknown"`
(src/main.py lines 239-241); a missing key on a present row raises. -/
def pickInfoField (rows : List Json) (key : String) : Except String Json :=
  match rows with
  | [] => .ok (Json.str "Unknown")
  | row :: _ =>
    match jsonGet row key with
    | some v => .ok v
    | none => .error ("KeyError: \x27" ++ key ++ "\x27")

/-- Handler `get_database_info_tool()` (src/main.py lines 222-250). -/
def get_database_info_tool (db : DB) (now : String) : Json :=
  let fail := fun (e : String) =>
    Json.obj [("success", Json.bool false), ("error", Json.str e),
              ("timestamp", Json.str now)]
  match db "SELECT @@VERSION as version" [] with
  | .error e => fail e
  | .ok version_result =>
  match db "SELECT DB_NAME() as database_name" [] with
  | .error e => fail e
  | .ok db_name_result =>
  match db "SELECT @@SERVERNAME as server_name" [] with
  | .error e => fail e
  | .ok server_name_result =>
  match db LIST_TABLES_QUERY [] with
  | .error e => fail e
  | .ok table_results =>
  match pickInfoField db_name_result "database_name" with
  | .error e => fail e
  | .ok database_name =>
  match pickInfoField server_name_result "server_name" with
  | .error e => fail e
  | .ok server_name =>
  match pickInfoField version_result "version" with
  | .error e => fail e
  | .ok version =>
    Json.obj [("success", Json.bool true),
              ("database_name", database_name),
              ("server_name", server_name),
              ("version", version),
              ("table_count", Json.num table_results.length),
              ("timestamp", Json.str now)]

/-- The `"parameters"` value echoed in stored-procedure results
(`None` serializes as JSON null, a dict as an object). -/
def paramsJson : Option (List (String × Json)) → Json
  | none => Json.null
  | some ps => Json.obj ps

/-- Handler `execute_stored_procedure_tool(procedure_name, parameters=None)`
(src/main.py lines 252-283).  Python `if parameters:` is falsy for `None`
and for an empty dict, so both take the parameterless branch.  The second
component lists the `execute_query` calls made. -/
def execute_stored_procedure_tool (db : DB) (now : String)
    (procedure_name : String) (parameters : Option (List (String × Json))) :
    Json × List (String × List Json) :=
  let call : String × List Json :=
    match parameters with
    | some ps =>
      if ps.isEmpty then ("EXEC " ++ procedure_name, [])
      else
        ("EXEC " ++ procedure_name ++ " " ++
           String.intercalate ", " (ps.map (fun kv => "@" ++ kv.1 ++ " = ?")),
         ps.map (fun kv => kv.2))
    | none => ("EXEC " ++ procedure_name, [])
  match db call.1 call.2 with
  | .ok results =>
    (Json.obj [("success", Json.bool true),
               ("procedure_name", Json.str procedure_name),
               ("parameters", paramsJson parameters),
               ("results", Json.arr results),
               ("row_count", Json.num results.length),
               ("timestamp", Json.str now)], [call])
  | .error e =>
    (Json.obj [("success", Json.bool false),
               ("error", Json.str e),
               ("procedure_name", Json.str procedure_name),
               ("parameters", paramsJson parameters),
               ("timestamp", Json.str now)], [call])

/-! ## Tool registry and JSON-RPC dispatcher (src/main.py lines 286-563)

`mcp_handler` calls each registered function as `tool_function(**arguments)`.
Python keyword binding can itself raise (unexpected keyword, missing
required argument, and the dynamic type errors the handler body raises
before its internal `try`); the wrappers below model that call-time
boundary, returning `Except.error` exactly when the call would raise. -/

/-- Keyword-binding check for `f(**arguments)`: an unexpected keyword or a
missing required parameter raises `TypeError` before the body runs. -/
def kwargCheck (fname : String) (required optional : List String)
    (args : List (String × Json)) : Option String :=
  match args.find? (fun kv => !(required.contains kv.1 || optional.contains kv.1)) with
  | some kv =>
    some (fname ++ "() got an unexpected keyword argument \x27" ++ kv.1 ++ "\x27")
  | none =>
    match required.find? (fun r => (lookupAssoc args r).isNone) with
    | some r =>
      some (fname ++ "() missing 1 required positional argument: \x27" ++ r ++ "\x27")
    | none => none

/-- Call boundary of `query_database_tool(**arguments)`: `limit` defaults
to 100; a non-string `query` or non-integer `limit` makes the body raise
before its internal `try` (src/main.py lines 133-147 are outside it). -/
def call_query_database (db : DB) (now : String)
    (args : List (String × Json)) : Except String Json :=
  match kwargCheck "query_database_tool" ["query"] ["limit"] args with
  | some e => .error e
  | none =>
    match lookupAssoc args "query", lookupAssoc args "limit" with
    | some (Json.str q), none => .ok (query_database_tool db now q 100).1
    | some (Json.str q), some (Json.num n) => .ok (query_database_tool db now q n).1
    | _, _ => .error "TypeError: unsupported argument type"

/-- Call boundary of `list_tables_tool(**arguments)`. -/
def call_list_tables (db : DB) (now : String)
    (args : List (String × Json)) : Except String Json :=
  match kwargCheck "list_tables_tool" [] [] args with
  | some e => .error e
  | none => .ok (list_tables_tool db now)

/-- Call boundary of `describe_table_tool(**arguments)`. -/
def call_describe_table (db : DB) (now : String)
    (args : List (String × Json)) : Except String Json :=
  match kwargCheck "describe_table_tool" ["table_name"] [] args with
  | some e => .error e
  | none =>
    match lookupAssoc args "table_name" with
    | some (Json.str t) => .ok (describe_table_tool db now t)
    | _ => .error "TypeError: unsupported argument type"

/-- Call boundary of `get_database_info_tool(**arguments)`. -/
def call_get_database_info (db : DB) (now : String)
    (args : List (String × Json)) : Except String Json :=
  match kwargCheck "get_database_info_tool" [] [] args with
  | some e => .error e
  | none => .ok (get_database_info_tool db now)

/-- Call boundary of `execute_stored_procedure_tool(**arguments)`:
`parameters` defaults to `None`; JSON null is Python `None`; a non-dict
value makes `parameters.items()` raise. -/
def call_execute_stored_procedure (db : DB) (now : String)
    (args : List (String × Json)) : Except String Json :=
  match kwargCheck "execute_stored_procedure_tool" ["procedure_name"] ["parameters"] args with
  | some e => .error e
  | none =>
    match lookupAssoc args "procedure_name" with
    | some (Json.str p) =>
      match lookupAssoc args "parameters" with
      | none => .ok (execute_stored_procedure_tool db now p none).1
      | some Json.null => .ok (execute_stored_procedure_tool db now p none).1
      | some (Json.obj ps) => .ok (execute_stored_procedure_tool db now p (some ps)).1
      | some _ => .error "TypeError: unsupported argument type"
    | _ => .error "TypeError: unsupported argument type"

/-- Registry entry: description, declared input schema, and the callable
(the `"function"`, `"description"` and `"parameters"` keys of
src/main.py lines 286-340). -/
structure ToolEntry where
  description : String
  parameters : Json
  call : List (String × Json) → Except String Json

/-- Input schema of `query_database` (src/main.py lines 290-297). -/
def QUERY_DATABASE_SCHEMA : Json :=
  Json.obj [("type", Json.str "object"),
            ("properties", Json.obj
              [("query", Json.obj [("type", Json.str "string"),
                 ("description", Json.str "SQL SELECT query to execute")]),
               ("limit", Json.obj [("type", Json.str "integer"),
                 ("description", Json.str "Maximum rows to return"),
                 ("default", Json.num 100)])]),
            ("required", Json.arr [Json.str "query"])]

/-- Input schema of `list_tables` (src/main.py lines 302-306). -/
def LIST_TABLES_SCHEMA : Json :=
  Json.obj [("type", Json.str "object"),
            ("properties", Json.obj []),
            ("required", Json.arr [])]

/-- Input schema of `describe_table` (src/main.py lines 311-317). -/
def DESCRIBE_TABLE_SCHEMA : Json :=
  Json.obj [("type", Json.str "object"),
            ("properties", Json.obj
              [("table_name", Json.obj [("type", Json.str "string"),
                 ("description", Json.str "Name of the table to describe")])]),
            ("required", Json.arr [Json.str "table_name"])]

/-- Input schema of `get_database_info` (src/main.py lines 322-326). -/
def GET_DATABASE_INFO_SCHEMA : Json :=
  Json.obj [("type", Json.str "object"),
            ("properties", Json.obj []),
            ("required", Json.arr [])]

/-- Input schema of `execute_stored_procedure` (src/main.py lines 331-338). -/
def EXECUTE_STORED_PROCEDURE_SCHEMA : Json :=
  Json.obj [("type", Json.str "object"),
            ("properties", Json.obj
              [("procedure_name", Json.obj [("type", Json.str "string"),
                 ("description", Json.str "Name of the stored procedure")]),
               ("parameters", Json.obj [("type", Json.str "object"),
                 ("description", Json.str "Parameters for the stored procedure")])]),
            ("required", Json.arr [Json.str "procedure_name"])]

/-- The `MCP_TOOLS` registry (src/main.py lines 286-340), in insertion
order, closed over the database oracle and the current timestamp. -/
def MCP_TOOLS (db : DB) (now : String) : List (String × ToolEntry) :=
  [("query_database",
    ⟨"Execute a SQL query against the database.",
     QUERY_DATABASE_SCHEMA, call_query_database db now⟩),
   ("list_tables",
    ⟨"Get a list of all tables in the database.",
     LIST_TABLES_SCHEMA, call_list_tables db now⟩),
   ("describe_table",
    ⟨"Get schema information for a specific table.",
     DESCRIBE_TABLE_SCHEMA, call_describe_table db now⟩),
   ("get_database_info",
    ⟨"Get general information about the connected database.",
     GET_DATABASE_INFO_SCHEMA, call_get_database_info db now⟩),
   ("execute_stored_procedure",
    ⟨"Execute a stored procedure.",
     EXECUTE_STORED_PROCEDURE_SCHEMA, call_execute_stored_procedure db now⟩)]

/-- The `params` object of a `tools/call` request: `params.get("name")`
and `params.get("arguments", {})`. -/
structure RpcParams where
  name : Option String
  arguments : List (String × Json)

/-- An inbound JSON-RPC request object, by its keys as `mcp_handler` reads
them with `request.get(...)`; absent keys are `none`.  The `jsonrpc` key is
carried to state what the dispatcher does (not) do with it. -/
structure RpcRequest where
  jsonrpc : Option Json
  method : Option String
  params : Option RpcParams
  id : Option Json

/-- Interpolation of an optional string into an f-string (`None` prints as
`"None"`). -/
def optStr : Option String → String
  | some s => s
  | none => "None"

/-- One `{"type": "text", "text": s}` content item. -/
def textContent (s : String) : Json :=
  Json.obj [("type", Json.str "text"), ("text", Json.str s)]

/-- Fixed result of the `initialize` method (src/main.py lines 523-542). -/
def INITIALIZE_RESULT : Json :=
  Json.obj [("protocolVersion", Json.str "2024-11-05"),
            ("capabilities", Json.obj
              [("tools", Json.obj [("listChanged", Json.bool true)]),
               ("resources", Json.obj []),
               ("prompts", Json.obj [])]),
            ("serverInfo", Json.obj
              [("name", Json.str "SQL Server MCP"),
               ("version", Json.str "1.0.0"),
               ("description", Json.str
                 "Model Context Protocol server for MS SQL Server database operations")])]

/-- The `tools/list` payload: registry contents mapped to
`{name, description, inputSchema}` (src/main.py lines 457-463). -/
def toolsListJson : List (String × ToolEntry) → List Json
  | [] => []
  | (n, entry) :: rest =>
    Json.obj [("name", Json.str n),
              ("description", Json.str entry.description),
              ("inputSchema", entry.parameters)] :: toolsListJson rest

/-- JSON-RPC dispatcher `mcp_handler` (src/main.py lines 451-563): route by
`method`; on `tools/call`, look the tool up, invoke it, and convert both a
normal return and a raised exception into a success envelope whose
`result.isError` flag distinguishes them; unknown tools give envelope error
`-1`, unknown methods `-32601`.  `request.get("id", 1)` supplies the id. -/
def mcp_handler (db : DB) (now : String) (req : RpcRequest) : Json :=
  let reqId := req.id.getD (Json.num 1)
  if req.method == some "tools/list" then
    Json.obj [("jsonrpc", Json.str "2.0"),
              ("result", Json.obj [("tools", Json.arr (toolsListJson (MCP_TOOLS db now)))]),
              ("id", reqId)]
  else if req.method == some "tools/call" then
    let params := req.params.getD ⟨none, []⟩
    let tool_name := params.name
    match (match tool_name with
           | some n => lookupAssoc (MCP_TOOLS db now) n
           | none => none) with
    | none =>
      Json.obj [("jsonrpc", Json.str "2.0"),
                ("error", Json.obj [("code", Json.num (-1)),
                  ("message", Json.str ("Tool \x27" ++ optStr tool_name ++ "\x27 not found"))]),
                ("id", reqId)]
    | some entry =>
      match entry.call params.arguments with
      | .ok result =>
        Json.obj [("jsonrpc", Json.str "2.0"),
                  ("result", Json.obj
                    [("content", Json.arr [textContent (pyJsonDumps result)]),
                     ("isError", Json.bool false)]),
                  ("id", reqId)]
      | .error e =>
        Json.obj [("jsonrpc", Json.str "2.0"),
                  ("result", Json.obj
                    [("content", Json.arr
                       [textContent (pyJsonDumps (Json.obj [("error", Json.str e)]))]),
                     ("isError", Json.bool true)]),
                  ("id", reqId)]
  else if req.method == some "initialize" then
    Json.obj [("jsonrpc", Json.str "2.0"),
              ("result", INITIALIZE_RESULT),
              ("id", reqId)]
  else
    Json.obj [("jsonrpc", Json.str "2.0"),
              ("error", Json.obj [("code", Json.num (-32601)),
                ("message", Json.str ("Method \x27" ++ optStr req.method ++ "\x27 not found"))]),
              ("id", reqId)]

/-! ## Helper lemmas about the string primitives -/

lemma str_data_append (a b : String) : (a ++ b).data = a.data ++ b.data := rfl

lemma str_eq_of_data {s t : String} (h : s.data = t.data) : s = t := by
  cases s; cases t; exact congrArg String.mk h

lemma chIsPref_append_self (pat post : List Char) :
    chIsPref pat (pat ++ post) = true := by
  induction pat with
  | nil => rfl
  | cons p ps ih => simp [chIsPref, ih]

lemma chContains_of_pref {pat l : List Char} (h : chIsPref pat l = true) :
    chContains pat l = true := by
  cases l with
  | nil => simpa [chContains] using h
  | cons c cs => simp [chContains, h]

lemma chContains_append_mid (pre pat post : List Char) :
    chContains pat (pre ++ (pat ++ post)) = true := by
  induction pre with
  | nil => exact chContains_of_pref (chIsPref_append_self pat post)
  | cons c cs ih => simp [chContains, ih]

lemma chIsPref_append_left (a b l : List Char) (h : chIsPref (a ++ b) l = true) :
    chIsPref a l = true := by
  induction a generalizing l with
  | nil => rfl
  | cons p ps ih =>
    cases l with
    | nil => simp [chIsPref] at h
    | cons c cs =>
      simp only [List.cons_append, chIsPref, Bool.and_eq_true] at h ⊢
      exact ⟨h.1, ih cs h.2⟩

lemma startsWith_select_of_distinct (s : String)
    (h : pyStartsWith s "SELECT DISTINCT" = true) :
    pyStartsWith s "SELECT" = true := by
  have e : ("SELECT DISTINCT").data = ("SELECT").data ++ (" DISTINCT").data := rfl
  unfold pyStartsWith at h ⊢
  rw [e] at h
  exact chIsPref_append_left _ _ _ h

lemma stripLeft_append (a b : List Char) :
    stripLeft (a ++ b) = if stripLeft a = [] then stripLeft b else stripLeft a ++ b := by
  induction a with
  | nil => simp [stripLeft]
  | cons x xs ih =>
    by_cases hx : pyIsSpace x = true
    · simpa [stripLeft, hx] using ih
    · simp [stripLeft, hx]

lemma stripRight_mid (xs : List Char) (c : Char) (ys : List Char)
    (hc : pyIsSpace c = false) :
    ∃ zs, stripRight (xs ++ c :: ys) = xs ++ c :: zs := by
  unfold stripRight
  have hrev : (xs ++ c :: ys).reverse = ys.reverse ++ (c :: xs.reverse) := by
    simp
  rw [hrev, stripLeft_append]
  have hcons : stripLeft (c :: xs.reverse) = c :: xs.reverse := by
    simp [stripLeft, hc]
  by_cases hy : stripLeft ys.reverse = []
  · refine ⟨[], ?_⟩
    simp [hy, hcons]
  · refine ⟨(stripLeft ys.reverse).reverse, ?_⟩
    simp [hy, hcons]

lemma map_pyUpperChar_P : pyUpperChar 'P' = 'P' := by decide

lemma contains_TOP_strip (h : Char) (hs tail : List Char)
    (hh : pyIsSpace h = false)
    (hmap : List.map pyUpperChar (h :: hs ++ ['T', 'O']) = h :: hs ++ ['T', 'O']) :
    chContains ['T', 'O', 'P']
      (List.map pyUpperChar (stripRight (stripLeft ((h :: hs ++ ['T', 'O']) ++ 'P' :: tail)))) = true := by
  have h1 : stripLeft ((h :: hs ++ ['T', 'O']) ++ 'P' :: tail)
      = (h :: hs ++ ['T', 'O']) ++ 'P' :: tail := by
    simp [stripLeft, hh]
  obtain ⟨zs, h2⟩ := stripRight_mid (h :: hs ++ ['T', 'O']) 'P' tail (by decide)
  rw [h1, h2]
  have h3 : List.map pyUpperChar ((h :: hs ++ ['T', 'O']) ++ 'P' :: zs)
      = (h :: hs ++ ['T', 'O']) ++ 'P' :: List.map pyUpperChar zs := by
    rw [List.map_append, hmap]
    simp [map_pyUpperChar_P]
  rw [h3]
  have h4 : (h :: hs ++ ['T', 'O']) ++ 'P' :: List.map pyUpperChar zs
      = (h :: hs) ++ (['T', 'O', 'P'] ++ List.map pyUpperChar zs) := by
    simp
  rw [h4]
  exact chContains_append_mid _ _ _

/-! ## Gate branch lemmas -/

lemma gate_select_branch (q : String) (L : Int)
    (hsel : pyStartsWith (pyUpper (pyStrip q)) "SELECT" = true)
    (hl : strContains (pyUpper (pyStrip q)) "LIMIT" = false)
    (ht : strContains (pyUpper (pyStrip q)) "TOP" = false) :
    query_gate q L =
      if pyStartsWith (pyUpper (pyStrip q)) "SELECT DISTINCT" then
        GateOutcome.run ("SELECT DISTINCT TOP " ++ toString (min L 1000) ++ " " ++ pyDrop (pyStrip q) 15)
      else
        GateOutcome.run ("SELECT TOP " ++ toString (min L 1000) ++ " " ++ pyDrop (pyStrip q) 6) := by
  have hm : (if L > 1000 then (1000 : Int) else L) = min L 1000 := by split <;> omega
  unfold query_gate
  simp [hsel, hl, ht, hm]

/-! ## Claims -/

/-- Concrete database oracle used to instantiate witnesses: every statement
fails (the handlers never even reach it in the rejection scenarios). -/
def demoDb : DB := fun _ _ => Except.error "no database connection"

/-- C1: for every query string whose trimmed, case-normalized text does not
begin with the SELECT keyword, `query_database_tool` (which has no write
path at all) returns the dictionary pairing the fixed "Only SELECT queries
are allowed for security reasons" message with the original query text, and
performs no `execute_query` call: the database is never touched. -/
theorem claim_C1_query_tool_rejects_non_select (db : DB) (now query : String) (limit : Int)
    (h : pyStartsWith (pyUpper (pyStrip query)) "SELECT" = false) :
    query_database_tool db now query limit =
      (Json.obj [("error", Json.str "Only SELECT queries are allowed for security reasons"),
                 ("query", Json.str query)], []) := by
  unfold query_database_tool query_gate
  simp [h]

/-- C1 witness: a `DROP TABLE` statement is rejected with the error object
and an empty list of database calls. -/
theorem claim_C1_witness :
    query_database_tool demoDb "2024-01-01T00:00:00" "DROP TABLE users" 100 =
      (Json.obj [("error", Json.str "Only SELECT queries are allowed for security reasons"),
                 ("query", Json.str "DROP TABLE users")], []) :=
  claim_C1_query_tool_rejects_non_select demoDb "2024-01-01T00:00:00" "DROP TABLE users" 100
    (by decide)

/-- C2 counterexample: with the Python default `limit=100`, the gate
rewrites `"SELECT DISTINCT x FROM t"` to `"SELECT DISTINCT TOP 100  x FROM t"`
(TOP 100, double space), not to the claimed `"SELECT DISTINCT TOP 1000 x FROM t"`. -/
theorem claim_C2_counterexample :
    query_gate "SELECT DISTINCT x FROM t" 100 =
      GateOutcome.run "SELECT DISTINCT TOP 100  x FROM t" ∧
    query_gate "SELECT DISTINCT x FROM t" 100 ≠
      GateOutcome.run "SELECT DISTINCT TOP 1000 x FROM t" := by
  decide

/-- C2 (amended): with no explicit limit argument the Python default
`limit=100` applies (not the cap 1000), so a `SELECT DISTINCT` query with
no TOP/LIMIT substring is rewritten with `TOP 100` spliced after the
15-character `SELECT DISTINCT` prefix; the inserted text ends with a space
and the preserved remainder keeps its own leading separator. -/
theorem claim_C2_default_limit_is_100 (q : String)
    (hd : pyStartsWith (pyUpper (pyStrip q)) "SELECT DISTINCT" = true)
    (hl : strContains (pyUpper (pyStrip q)) "LIMIT" = false)
    (ht : strContains (pyUpper (pyStrip q)) "TOP" = false) :
    query_gate q 100 =
      GateOutcome.run ("SELECT DISTINCT TOP 100 " ++ pyDrop (pyStrip q) 15) := by
  have hsel := startsWith_select_of_distinct _ hd
  rw [gate_select_branch q 100 hsel hl ht, if_pos hd]
  rfl

/-- C2 witness: the spec's own example, evaluated. -/
theorem claim_C2_witness :
    query_gate "SELECT DISTINCT x FROM t" 100 =
      GateOutcome.run ("SELECT DISTINCT TOP 100 " ++ pyDrop (pyStrip "SELECT DISTINCT x FROM t") 15) ∧
    ("SELECT DISTINCT TOP 100 " ++ pyDrop (pyStrip "SELECT DISTINCT x FROM t") 15) =
      "SELECT DISTINCT TOP 100  x FROM t" :=
  ⟨claim_C2_default_limit_is_100 "SELECT DISTINCT x FROM t" (by decide) (by decide) (by decide),
   by decide⟩

/-- C3 counterexample: `query_database("SELECT * FROM t", limit=10)`
executes `"SELECT TOP 10  * FROM t"` (two spaces: the inserted clause ends
with a space and the preserved remainder begins with the original
separator), not the claimed `"SELECT TOP 10 * FROM t"`. -/
theorem claim_C3_counterexample :
    query_gate "SELECT * FROM t" 10 = GateOutcome.run "SELECT TOP 10  * FROM t" ∧
    query_gate "SELECT * FROM t" 10 ≠ GateOutcome.run "SELECT TOP 10 * FROM t" := by
  decide

/-- C3 (amended): for every SELECT query (not of the SELECT DISTINCT form)
whose uppercased text contains neither "TOP" nor "LIMIT" as a substring,
and every integer limit `L`, the gate inserts `TOP (min L 1000)` right
after the 6-character SELECT keyword of the stripped query, preserving the
remainder verbatim - including its leading space, so the inserted clause's
trailing space yields a double space. -/
theorem claim_C3_top_insertion (q : String) (L : Int)
    (hsel : pyStartsWith (pyUpper (pyStrip q)) "SELECT" = true)
    (hnd : pyStartsWith (pyUpper (pyStrip q)) "SELECT DISTINCT" = false)
    (hl : strContains (pyUpper (pyStrip q)) "LIMIT" = false)
    (ht : strContains (pyUpper (pyStrip q)) "TOP" = false) :
    query_gate q L =
      GateOutcome.run ("SELECT TOP " ++ toString (min L 1000) ++ " " ++ pyDrop (pyStrip q) 6) := by
  rw [gate_select_branch q L hsel hl ht, hnd]
  simp

/-- C3 witness: the spec's own example, evaluated: the result carries
`TOP min(10,1000) = TOP 10` and the double space. -/
theorem claim_C3_witness :
    query_gate "SELECT * FROM t" 10 =
      GateOutcome.run ("SELECT TOP " ++ toString (min (10 : Int) 1000) ++ " " ++
        pyDrop (pyStrip "SELECT * FROM t") 6) ∧
    ("SELECT TOP " ++ toString (min (10 : Int) 1000) ++ " " ++
        pyDrop (pyStrip "SELECT * FROM t") 6) = "SELECT TOP 10  * FROM t" :=
  ⟨claim_C3_top_insertion "SELECT * FROM t" 10 (by decide) (by decide) (by decide) (by decide),
   by decide⟩

/-- C5 counterexample: `"SELECT DISTINCTIVE FROM t"` IS matched by the
15-character prefix check (`"SELECT DISTINCTIVE"` starts with
`"SELECT DISTINCT"`), so the gate corrupts it to
`"SELECT DISTINCT TOP 100 IVE FROM t"` instead of rewriting it as the
claimed plain SELECT `"SELECT TOP 100  DISTINCTIVE FROM t"`. -/
theorem claim_C5_counterexample :
    query_gate "SELECT DISTINCTIVE FROM t" 100 =
      GateOutcome.run "SELECT DISTINCT TOP 100 IVE FROM t" ∧
    query_gate "SELECT DISTINCTIVE FROM t" 100 ≠
      GateOutcome.run "SELECT TOP 100  DISTINCTIVE FROM t" := by
  decide

/-- C5 (amended): the DISTINCT detection is a fixed 15-character prefix
match of the uppercased stripped query against "SELECT DISTINCT", and
because it is not token-boundary-aware a column literally named
DISTINCTIVE immediately after SELECT IS mis-detected: for every query whose
uppercased prefix matches (which includes `SELECT DISTINCTIVE ...`), the
TOP clause is spliced in after character 15. -/
theorem claim_C5_distinct_prefix_detection (q : String) (L : Int)
    (hd : pyStartsWith (pyUpper (pyStrip q)) "SELECT DISTINCT" = true)
    (hl : strContains (pyUpper (pyStrip q)) "LIMIT" = false)
    (ht : strContains (pyUpper (pyStrip q)) "TOP" = false) :
    query_gate q L =
      GateOutcome.run ("SELECT DISTINCT TOP " ++ toString (min L 1000) ++ " " ++
        pyDrop (pyStrip q) 15) := by
  have hsel := startsWith_select_of_distinct _ hd
  rw [gate_select_branch q L hsel hl ht, if_pos hd]

/-- C5 witness: instantiated at the mis-detected `SELECT DISTINCTIVE`
query, producing the corrupted rewrite. -/
theorem claim_C5_witness :
    query_gate "SELECT DISTINCTIVE FROM t" 100 =
      GateOutcome.run ("SELECT DISTINCT TOP " ++ toString (min (100 : Int) 1000) ++ " " ++
        pyDrop (pyStrip "SELECT DISTINCTIVE FROM t") 15) ∧
    ("SELECT DISTINCT TOP " ++ toString (min (100 : Int) 1000) ++ " " ++
        pyDrop (pyStrip "SELECT DISTINCTIVE FROM t") 15) =
      "SELECT DISTINCT TOP 100 IVE FROM t" :=
  ⟨claim_C5_distinct_prefix_detection "SELECT DISTINCTIVE FROM t" 100
      (by decide) (by decide) (by decide),
   by decide⟩

/-- C6 counterexample: the serializer on the path the tools actually
execute (`DatabaseManager.execute_query` in src/main.py) has no byte
handling at all: a 4-byte undecodable value passes through as raw bytes,
not as the `"<binary data: 4 bytes>"` placeholder (which only
`QueryExecutor.execute_select_query` in the unused src/database.py
produces). -/
theorem claim_C6_counterexample :
    utf8Decode [255, 254, 253, 252] = none ∧
    dbManagerSerializeValue (.pyBytes [255, 254, 253, 252]) =
      PyValue.pyBytes [255, 254, 253, 252] ∧
    dbManagerSerializeValue (.pyBytes [255, 254, 253, 252]) ≠
      PyValue.pyStr "<binary data: 4 bytes>" := by
  decide

/-- C6 (amended): the byte-sequence conversion the claim describes is the
one in `QueryExecutor.execute_select_query` (src/database.py): an
undecodable byte value becomes `"<binary data: N bytes>"` with N the byte
length, and date/time values become their ISO string there; but the
serializer on the query-execution path the tool handlers actually use
(`DatabaseManager.execute_query`, src/main.py) converts only date/time
values and passes byte values through unchanged. -/
theorem claim_C6_serializers (bs : List Nat) (iso : String)
    (h : utf8Decode bs = none) :
    queryExecutorSerializeValue (.pyBytes bs) =
      .pyStr ("<binary data: " ++ toString bs.length ++ " bytes>") ∧
    dbManagerSerializeValue (.pyBytes bs) = .pyBytes bs ∧
    queryExecutorSerializeValue (.pyDatetime iso) = .pyStr iso ∧
    dbManagerSerializeValue (.pyDatetime iso) = .pyStr iso := by
  refine ⟨?_, rfl, rfl, rfl⟩
  show (match utf8Decode bs with
        | some s => PyValue.pyStr s
        | none => PyValue.pyStr ("<binary data: " ++ toString bs.length ++ " bytes>")) =
      PyValue.pyStr ("<binary data: " ++ toString bs.length ++ " bytes>")
  rw [h]

/-- C6 witness: the 4 undecodable bytes of the spec's example. -/
theorem claim_C6_witness :
    queryExecutorSerializeValue (.pyBytes [255, 254, 253, 252]) =
      PyValue.pyStr "<binary data: 4 bytes>" ∧
    dbManagerSerializeValue (.pyBytes [255, 254, 253, 252]) =
      PyValue.pyBytes [255, 254, 253, 252] ∧
    queryExecutorSerializeValue (.pyDatetime "2024-01-01T00:00:00") =
      PyValue.pyStr "2024-01-01T00:00:00" ∧
    dbManagerSerializeValue (.pyDatetime "2024-01-01T00:00:00") =
      PyValue.pyStr "2024-01-01T00:00:00" :=
  claim_C6_serializers [255, 254, 253, 252] "2024-01-01T00:00:00" (by decide)

lemma esp_snd (db : DB) (now name : String)
    (params : Option (List (String × Json))) (call : String × List Json)
    (hc : (match params with
           | some ps =>
             if ps.isEmpty then ("EXEC " ++ name, ([] : List Json))
             else
               ("EXEC " ++ name ++ " " ++
                  String.intercalate ", " (ps.map (fun kv => "@" ++ kv.1 ++ " = ?")),
                ps.map (fun kv => kv.2))
           | none => ("EXEC " ++ name, [])) = call) :
    (execute_stored_procedure_tool db now name params).2 = [call] := by
  unfold execute_stored_procedure_tool
  dsimp only
  rw [hc]
  cases hdb : db call.1 call.2 <;> rfl

/-- C8: with a non-empty parameters mapping the stored-procedure handler
executes exactly `EXEC <name> @k1 = ?, ..., @kn = ?` with the keys in
mapping order and the values bound positionally in the same order; with no
parameters it executes exactly `EXEC <name>`.  The call list is that
singleton for every procedure name and every oracle outcome: there is no
SELECT-only (or any other) restriction on this path. -/
theorem claim_C8_stored_procedure_statement (db : DB) (now name : String)
    (ps : List (String × Json)) (h : ps ≠ []) :
    (execute_stored_procedure_tool db now name (some ps)).2 =
      [("EXEC " ++ name ++ " " ++
          String.intercalate ", " (ps.map (fun kv => "@" ++ kv.1 ++ " = ?")),
        ps.map (fun kv => kv.2))] ∧
    (execute_stored_procedure_tool db now name none).2 = [("EXEC " ++ name, [])] := by
  constructor
  · apply esp_snd
    cases ps with
    | nil => cases h rfl
    | cons p ps' => rfl
  · exact esp_snd db now name none _ rfl

/-- C8 witness: a two-parameter call builds the two-placeholder EXEC
statement with the values in mapping order; the parameterless call builds
the bare EXEC statement. -/
theorem claim_C8_witness :
    (execute_stored_procedure_tool demoDb "2024-01-01T00:00:00" "usp_refresh"
        (some [("a", Json.num 1), ("b", Json.str "x")])).2 =
      [("EXEC usp_refresh @a = ?, @b = ?", [Json.num 1, Json.str "x"])] ∧
    (execute_stored_procedure_tool demoDb "2024-01-01T00:00:00" "usp_refresh" none).2 =
      [("EXEC usp_refresh", [])] :=
  claim_C8_stored_procedure_statement demoDb "2024-01-01T00:00:00" "usp_refresh"
    [("a", Json.num 1), ("b", Json.str "x")] (List.cons_ne_nil _ _)

/-- C9 counterexample: the rejection result the query tool returns for a
disallowed (non-SELECT) statement carries only `error` and `query`: it has
no `success: false` field and no `timestamp` field. -/
theorem claim_C9_counterexample :
    jsonGet (query_database_tool demoDb "2024-01-01T00:00:00" "DROP TABLE users" 100).1
      "success" = none ∧
    jsonGet (query_database_tool demoDb "2024-01-01T00:00:00" "DROP TABLE users" 100).1
      "timestamp" = none ∧
    jsonGet (query_database_tool demoDb "2024-01-01T00:00:00" "DROP TABLE users" 100).1
      "error" = some (Json.str "Only SELECT queries are allowed for security reasons") := by
  exact ⟨rfl, rfl, rfl⟩

/-- C9 (amended): failure results produced by the query tool's exception
boundary do carry `success: false`, an `error` string and a `timestamp`
(together with the query context), but the early non-SELECT rejection is
the exception: it carries only `error` and `query`. -/
theorem claim_C9_failure_fields (q q' : String) (l : Int) (now e : String)
    (h : query_gate q l = GateOutcome.run q') :
    (query_database_tool (fun _ _ => Except.error e) now q l).1 =
      Json.obj [("success", Json.bool false), ("error", Json.str e),
                ("query", Json.str q'), ("timestamp", Json.str now)] := by
  unfold query_database_tool
  rw [h]

/-- C9 witness: a failing driver call on a SELECT query yields the
four-field failure dictionary. -/
theorem claim_C9_witness :
    (query_database_tool (fun _ _ => Except.error "boom") "2024-01-01T00:00:00"
        "SELECT * FROM t" 5).1 =
      Json.obj [("success", Json.bool false), ("error", Json.str "boom"),
                ("query", Json.str "SELECT TOP 5  * FROM t"),
                ("timestamp", Json.str "2024-01-01T00:00:00")] :=
  claim_C9_failure_fields "SELECT * FROM t" "SELECT TOP 5  * FROM t" 5
    "2024-01-01T00:00:00" "boom" (by decide)

/-- C10: the dispatcher never reads the request's `jsonrpc` field: two
requests identical except for the presence or value of that key route the
same way, invoke the same handler with the same arguments, and produce
identical response envelopes against the same database oracle. -/
theorem claim_C10_jsonrpc_ignored (db : DB) (now : String)
    (j1 j2 : Option Json) (m : Option String) (p : Option RpcParams) (i : Option Json) :
    mcp_handler db now ⟨j1, m, p, i⟩ = mcp_handler db now ⟨j2, m, p, i⟩ := rfl

/-- C7: when a `tools/call` request names a registered tool and the invoked
handler raises (`Except.error`), the dispatcher returns a JSON-RPC success
envelope - a `result` field, no envelope-level `error` field - with
`result.isError = true` and the exception message serialized as the content
text; the exception never reaches the transport. -/
theorem claim_C7_handler_exception_contained
    (db : DB) (now : String) (req : RpcRequest) (p : RpcParams)
    (tn msg : String) (entry : ToolEntry)
    (hm : req.method = some "tools/call")
    (hp : req.params = some p)
    (hn : p.name = some tn)
    (hl : lookupAssoc (MCP_TOOLS db now) tn = some entry)
    (hc : entry.call p.arguments = Except.error msg) :
    mcp_handler db now req =
      Json.obj [("jsonrpc", Json.str "2.0"),
                ("result", Json.obj
                  [("content", Json.arr
                     [textContent (pyJsonDumps (Json.obj [("error", Json.str msg)]))]),
                   ("isError", Json.bool true)]),
                ("id", req.id.getD (Json.num 1))] ∧
    jsonGet (mcp_handler db now req) "error" = none := by
  have hmain : mcp_handler db now req =
      Json.obj [("jsonrpc", Json.str "2.0"),
                ("result", Json.obj
                  [("content", Json.arr
                     [textContent (pyJsonDumps (Json.obj [("error", Json.str msg)]))]),
                   ("isError", Json.bool true)]),
                ("id", req.id.getD (Json.num 1))] := by
    unfold mcp_handler
    simp [hm, hp, hn, hl, hc]
  exact ⟨hmain, by rw [hmain]; rfl⟩

/-- C7 witness: calling `describe_table` with empty arguments makes the
handler raise on the missing required argument, and the dispatcher wraps
the message in an `isError: true` success envelope with no `error` field. -/
theorem claim_C7_witness :
    mcp_handler demoDb "2024-01-01T00:00:00"
        ⟨some (Json.str "2.0"), some "tools/call",
         some ⟨some "describe_table", []⟩, some (Json.num 7)⟩ =
      Json.obj [("jsonrpc", Json.str "2.0"),
                ("result", Json.obj
                  [("content", Json.arr
                     [textContent (pyJsonDumps (Json.obj [("error", Json.str
                        "describe_table_tool() missing 1 required positional argument: \x27table_name\x27")]))]),
                   ("isError", Json.bool true)]),
                ("id", Json.num 7)] ∧
    jsonGet (mcp_handler demoDb "2024-01-01T00:00:00"
        ⟨some (Json.str "2.0"), some "tools/call",
         some ⟨some "describe_table", []⟩, some (Json.num 7)⟩) "error" = none :=
  claim_C7_handler_exception_contained demoDb "2024-01-01T00:00:00"
    ⟨some (Json.str "2.0"), some "tools/call",
     some ⟨some "describe_table", []⟩, some (Json.num 7)⟩
    ⟨some "describe_table", []⟩
    "describe_table"
    "describe_table_tool() missing 1 required positional argument: \x27table_name\x27"
    ⟨"Get schema information for a specific table.", DESCRIBE_TABLE_SCHEMA,
     call_describe_table demoDb "2024-01-01T00:00:00"⟩
    rfl rfl rfl rfl rfl

lemma rewrite_plain_not_passthrough (t d q : String)
    (hq : "SELECT TOP " ++ t ++ " " ++ d = q)
    (h2 : strContains (pyUpper (pyStrip q)) "TOP" = false) : False := by
  subst hq
  have h2' : chContains ['T', 'O', 'P']
      (List.map pyUpperChar (stripRight (stripLeft ("SELECT TOP " ++ t ++ " " ++ d).data))) = false := h2
  have la : ("SELECT TOP ").data = ['S', 'E', 'L', 'E', 'C', 'T', ' ', 'T', 'O', 'P', ' '] := rfl
  have lsp : (" ").data = [' '] := rfl
  have hdata : ("SELECT TOP " ++ t ++ " " ++ d).data =
      ('S' :: ['E', 'L', 'E', 'C', 'T', ' '] ++ ['T', 'O']) ++ 'P' :: (' ' :: (t.data ++ ' ' :: d.data)) := by
    simp [str_data_append, la, lsp]
  rw [hdata] at h2'
  have htrue := contains_TOP_strip 'S' ['E', 'L', 'E', 'C', 'T', ' ']
    (' ' :: (t.data ++ ' ' :: d.data)) (by decide) (by decide)
  rw [htrue] at h2'
  exact absurd h2' (by decide)

lemma rewrite_distinct_not_passthrough (t d q : String)
    (hq : "SELECT DISTINCT TOP " ++ t ++ " " ++ d = q)
    (h2 : strContains (pyUpper (pyStrip q)) "TOP" = false) : False := by
  subst hq
  have h2' : chContains ['T', 'O', 'P']
      (List.map pyUpperChar (stripRight (stripLeft ("SELECT DISTINCT TOP " ++ t ++ " " ++ d).data))) = false := h2
  have la : ("SELECT DISTINCT TOP ").data =
      ['S', 'E', 'L', 'E', 'C', 'T', ' ', 'D', 'I', 'S', 'T', 'I', 'N', 'C', 'T', ' ', 'T', 'O', 'P', ' '] := rfl
  have lsp : (" ").data = [' '] := rfl
  have hdata : ("SELECT DISTINCT TOP " ++ t ++ " " ++ d).data =
      ('S' :: ['E', 'L', 'E', 'C', 'T', ' ', 'D', 'I', 'S', 'T', 'I', 'N', 'C', 'T', ' '] ++ ['T', 'O']) ++
        'P' :: (' ' :: (t.data ++ ' ' :: d.data)) := by
    simp [str_data_append, la, lsp]
  rw [hdata] at h2'
  have htrue := contains_TOP_strip 'S' ['E', 'L', 'E', 'C', 'T', ' ', 'D', 'I', 'S', 'T', 'I', 'N', 'C', 'T', ' ']
    (' ' :: (t.data ++ ' ' :: d.data)) (by decide) (by decide)
  rw [htrue] at h2'
  exact absurd h2' (by decide)

/-- C4 counterexample: `"SELECT TOPIC FROM t"` contains neither `"TOP "`
nor `"LIMIT "` with a trailing space, yet the gate passes it through
completely unmodified (the source checks the bare substrings `"TOP"` /
`"LIMIT"`, and `TOPIC` contains `TOP`), instead of inserting a TOP clause
as the claim requires. -/
theorem claim_C4_counterexample :
    query_gate "SELECT TOPIC FROM t" 100 = GateOutcome.run "SELECT TOPIC FROM t" ∧
    strContains (pyUpper (pyStrip "SELECT TOPIC FROM t")) "TOP " = false ∧
    strContains (pyUpper (pyStrip "SELECT TOPIC FROM t")) "LIMIT " = false := by
  decide

/-- C4 (amended): for every SELECT-classified query, the gate passes the
query text through to execution completely unmodified if and only if the
uppercased stripped query contains `"TOP"` or `"LIMIT"` as a bare substring
(no trailing space required).  A query that already carries a limit is
still never double-limited, but the guard also trips on substrings inside
identifiers such as `TOPIC`; and a query without either substring always
receives an inserted TOP clause (the rewrite is never the identity, since
the rewritten text always contains `"TOP"`). -/
theorem claim_C4_passthrough_iff (q : String) (L : Int)
    (hsel : pyStartsWith (pyUpper (pyStrip q)) "SELECT" = true) :
    query_gate q L = GateOutcome.run q ↔
      (strContains (pyUpper (pyStrip q)) "LIMIT" ||
       strContains (pyUpper (pyStrip q)) "TOP") = true := by
  constructor
  · intro hg
    cases h1 : strContains (pyUpper (pyStrip q)) "LIMIT" with
    | true => simp [h1]
    | false =>
      cases h2 : strContains (pyUpper (pyStrip q)) "TOP" with
      | true => simp [h2]
      | false =>
        exfalso
        have hrun := gate_select_branch q L hsel h1 h2
        rw [hrun] at hg
        by_cases hd : pyStartsWith (pyUpper (pyStrip q)) "SELECT DISTINCT" = true
        · rw [if_pos hd] at hg
          exact rewrite_distinct_not_passthrough (toString (min L 1000))
            (pyDrop (pyStrip q) 15) q ((GateOutcome.run.injEq _ _).mp hg) h2
        · rw [if_neg hd] at hg
          exact rewrite_plain_not_passthrough (toString (min L 1000))
            (pyDrop (pyStrip q) 6) q ((GateOutcome.run.injEq _ _).mp hg) h2
  · intro hor
    have hcond : (!(strContains (pyUpper (pyStrip q)) "LIMIT") &&
                  !(strContains (pyUpper (pyStrip q)) "TOP")) = false := by
      cases h1 : strContains (pyUpper (pyStrip q)) "LIMIT" <;>
        cases h2 : strContains (pyUpper (pyStrip q)) "TOP" <;> simp_all
    unfold query_gate
    simp [hsel, hcond]

/-- C4 witness: a query that already carries `TOP` is passed through
unmodified, as the instantiated equivalence confirms. -/
theorem claim_C4_witness :
    (query_gate "SELECT TOP 5 * FROM t" 100 = GateOutcome.run "SELECT TOP 5 * FROM t" ↔
      (strContains (pyUpper (pyStrip "SELECT TOP 5 * FROM t")) "LIMIT" ||
       strContains (pyUpper (pyStrip "SELECT TOP 5 * FROM t")) "TOP") = true) ∧
    (strContains (pyUpper (pyStrip "SELECT TOP 5 * FROM t")) "LIMIT" ||
     strContains (pyUpper (pyStrip "SELECT TOP 5 * FROM t")) "TOP") = true :=
  ⟨claim_C4_passthrough_iff "SELECT TOP 5 * FROM t" 100 (by decide), by decide⟩
